import Mathlib

/-!
Shallow embedding of src/app.py, an NFL game-score dashboard.

The embedded core is the loader/normalizer load_data (src/app.py lines
64-111) and the query/aggregation layer built on its output: the KPI
season filter and the rate KPIs (lines 129-155), the head-to-head block
of tab 1 (lines 186-212), and the grouped aggregations of tabs 2 and 3
(lines 248-251 and 274-279).

Modelling conventions:
* a dataframe is a list of rows; a missing (NaN) cell is none;
* pd.to_numeric with errors="coerce" is modelled as integer parsing,
  unparsable text becoming none: the verified claims depend only on how
  missing values propagate, not on the accepted numeric syntax;
* the optional columns schedule_playoff and stadium carry a table-level
  presence flag (hasPlayoff, hasStadium) next to the per-cell values,
  matching the column-presence branches of the script;
* the date-derived display columns (Year, Month-Year, Week) are not
  embedded; grouped aggregation is stated for an arbitrary grouping key,
  of which each concrete key column is an instance;
* the display sort of the head-to-head table (lines 198-201) is not
  embedded: the claims about that block are about the selected row set
  and the per-row winner, both order-independent.
-/

namespace NFL

/-- One raw CSV row after the required-column check of lines 73-80: the
eight required columns are present by construction, the optional cells
are Option values (none models a NaN cell). -/
structure RawRow where
  season : String
  week : String
  score_home : String
  score_away : String
  over_under_line : String
  spread_favorite : String
  team_home : String
  team_away : String
  schedule_playoff : Option String := none
  stadium : Option String := none
  deriving DecidableEq, Repr, Inhabited

/-- A raw table: rows plus the presence flags of the optional columns
that the script branches on (lines 99 and 107). -/
structure RawTable where
  rows : List RawRow
  hasPlayoff : Bool := false
  hasStadium : Bool := true
  deriving DecidableEq, Repr

/-- Decimal digit value of a character, by code point. -/
def digitVal (c : Char) : Option Nat :=
  if 48 ≤ c.toNat ∧ c.toNat ≤ 57 then some (c.toNat - 48) else none

/-- Accumulating decimal parser over a character list: none as soon as
a non-digit character appears. -/
def parseDigits : List Char → Nat → Option Nat
  | [], acc => some acc
  | c :: cs, acc =>
    match digitVal c with
    | some d => parseDigits cs (acc * 10 + d)
    | none => none

/-- Model of pd.to_numeric with errors="coerce" (lines 82-84): a cell
that fails numeric parsing becomes missing instead of raising. The
accepted syntax is modelled as optionally signed decimal integers; the
verified claims depend only on the success or failure of the coercion,
never on which numeric strings succeed. -/
def to_numeric (s : String) : Option Int :=
  match s.data with
  | [] => none
  | c :: cs =>
    if c.toNat = 45 then
      match cs with
      | [] => none
      | _ => (parseDigits cs 0).map fun n => -(n : Int)
    else (parseDigits (c :: cs) 0).map fun n => (n : Int)

/-- Model of Python str.lower restricted to the characters that can
matter against the truthy token set of line 101: ASCII letters plus the
accented capital of the token with an accent. -/
def pyLowerChar (c : Char) : Char := if c = 'Í' then 'í' else c.toLower

/-- Model of Python str.lower, applied characterwise. -/
def pyLower (s : String) : String := String.mk (s.data.map pyLowerChar)

/-- Model of astype(str) on one cell (line 100): a NaN cell prints as
the string "nan". -/
def pyStr : Option String → String
  | some s => s
  | none => "nan"

/-- The truthy tokens of line 101. -/
def truthyTokens : List String := ["1", "true", "yes", "y", "si", "sí"]

/-- The run-time error load_data can raise past the required-column
check: line 107 evaluates df.get "stadium" with default "Unknown", and
when the stadium column is absent that default is a plain Python string,
so the chained fillna call raises AttributeError. -/
inductive PandasError where
  | attributeError
  deriving DecidableEq, Repr

/-- One row of the normalized table returned by load_data: the coerced
required columns, the derived columns of lines 96-105 and 107, and the
schedule_playoff cell the dataframe keeps carrying. -/
structure Row where
  season : Option Int
  week : Option Int
  score_home : Option Int
  score_away : Option Int
  over_under_line : Option Int
  spread_favorite : Option Int
  team_home : String
  team_away : String
  total_points : Option Int
  margin_home : Option Int
  Phase : String
  stadium : String
  schedule_playoff : Option String
  deriving DecidableEq, Repr, Inhabited

/-- Per-row normalization: numeric coercion (lines 82-84), the derived
sums (lines 96-97), the playoff phase (lines 99-105), and the stadium
fill (line 107, reached only when the stadium column is present). -/
def mkRow (hasPlayoff : Bool) (r : RawRow) : Row :=
  let sh := to_numeric r.score_home
  let sa := to_numeric r.score_away
  { season := to_numeric r.season
    week := to_numeric r.week
    score_home := sh
    score_away := sa
    over_under_line := to_numeric r.over_under_line
    spread_favorite := to_numeric r.spread_favorite
    team_home := r.team_home
    team_away := r.team_away
    total_points := Option.map₂ (· + ·) sh sa
    margin_home := Option.map₂ (· - ·) sh sa
    Phase :=
      if hasPlayoff then
        if pyLower (pyStr r.schedule_playoff) ∈ truthyTokens then "Playoffs" else "Regular"
      else "Regular"
    stadium := r.stadium.getD "Unknown"
    schedule_playoff := r.schedule_playoff }

/-- load_data, lines 64-111, on a table that passed the required-column
check. When the stadium column is absent, line 107 calls fillna on the
plain string returned by df.get, which raises AttributeError; otherwise
every row is normalized. -/
def load_data (t : RawTable) : Except PandasError (List Row) :=
  if t.hasStadium then Except.ok (t.rows.map (mkRow t.hasPlayoff))
  else Except.error PandasError.attributeError

/-- The rows of a successful load, the empty table on failure. -/
def loadRows (t : RawTable) : List Row :=
  match load_data t with
  | Except.ok rs => rs
  | Except.error _ => []

/-- Season filter of the KPI block, line 129: Series.between is
inclusive at both ends, and a missing season compares false. -/
def kpi_filter (rows : List Row) (lo hi : Int) : List Row :=
  rows.filter fun r =>
    match r.season with
    | some s => decide (lo ≤ s) && decide (s ≤ hi)
    | none => false

/-- Numerator count of the Home Win Rate KPI, line 149: a missing
margin compares false against 0. -/
def homeWinCount (rows : List Row) : Nat :=
  rows.countP fun r =>
    match r.margin_home with
    | some m => decide (0 < m)
    | none => false

/-- Numerator count of the Close Games KPI, line 153: abs of a missing
margin is missing and compares false against 3. -/
def closeGamesCount (rows : List Row) : Nat :=
  rows.countP fun r =>
    match r.margin_home with
    | some m => decide (m.natAbs ≤ 3)
    | none => false

/-- Home Win Rate as the exact rational value of line 149: the mean of
the boolean column times 100. -/
def home_win_rate (rows : List Row) : ℚ :=
  ((homeWinCount rows : ℚ) / (rows.length : ℚ)) * 100

/-- Close Games rate as the exact rational value of line 153. -/
def close_games_rate (rows : List Row) : ℚ :=
  ((closeGamesCount rows : ℚ) / (rows.length : ℚ)) * 100

/-- NaN-skipping mean of pandas over the non-missing values of a
column: missing when there are none. -/
def meanInt (l : List Int) : Option ℚ :=
  if l.isEmpty then none else some ((l.sum : ℚ) / (l.length : ℚ))

/-- The recoverable condition of lines 186-187: the same team selected
twice in the head-to-head view. -/
inductive H2HError where
  | invalidSelection
  deriving DecidableEq, Repr

/-- Per-row winner of lines 203-206: nested np.where, where a missing
margin fails both comparisons and falls through to the tie branch. -/
def winner (r : Row) : String :=
  match r.margin_home with
  | some m => if 0 < m then r.team_home else if m < 0 then r.team_away else "Tie"
  | none => "Tie"

/-- The head-to-head aggregates of lines 193 and 208-212. -/
structure H2HResult where
  rows : List Row
  games : Nat
  wins_a : Nat
  wins_b : Nat
  ties : Nat
  avg_pts : Option ℚ
  deriving DecidableEq, Repr, Inhabited

/-- Head-to-head block of tab 1, lines 186-212: the equal-team guard,
the order-independent pair mask of lines 189-192, and the aggregates of
lines 208-212 (an empty match only changes what is displayed, lines
195-196, and is modelled as the empty aggregate). -/
def headToHead (rows : List Row) (A B : String) : Except H2HError H2HResult :=
  if A = B then Except.error H2HError.invalidSelection
  else
    let h2h := rows.filter fun r =>
      decide ((r.team_home = A ∧ r.team_away = B) ∨ (r.team_home = B ∧ r.team_away = A))
    Except.ok
      { rows := h2h
        games := h2h.length
        wins_a := h2h.countP fun r => decide (winner r = A)
        wins_b := h2h.countP fun r => decide (winner r = B)
        ties := h2h.countP fun r => decide (winner r = "Tie")
        avg_pts := meanInt (h2h.filterMap Row.total_points) }

/-- The successful head-to-head result, a default on the guard error. -/
def h2hOk (rows : List Row) (A B : String) : H2HResult :=
  match headToHead rows A B with
  | Except.ok h => h
  | Except.error _ => default

/-- Grouped aggregation of lines 248-251 and 274-277: pandas groupby
drops rows with a missing key, and the named aggregation counts the
non-missing total_points cells of each group while the mean skips them. -/
def group_agg {K : Type} [DecidableEq K] (key : Row → Option K) (rows : List Row) :
    List (K × Nat × Option ℚ) :=
  ((rows.filterMap key).dedup).map fun k =>
    (k,
     rows.countP (fun r => decide (key r = some k) && (r.total_points).isSome),
     meanInt ((rows.filter fun r => decide (key r = some k)).filterMap Row.total_points))

/-- Total of the per-group game counts of a grouped aggregate. -/
def sumGames {K : Type} (gs : List (K × Nat × Option ℚ)) : Nat :=
  (gs.map fun g => g.2.1).sum

/-- The grouping key of the stadium view, line 274: stadium is never
missing after load. -/
def stadiumKey (r : Row) : Option String := some r.stadium

/-! Concrete tables used to instantiate theorems with hypotheses and to
exhibit counterexamples. -/

/-- A raw game A 20 - 17 B of season 2000, week 1. -/
def exRawAB : RawRow :=
  { season := "2000", week := "1", score_home := "20", score_away := "17",
    over_under_line := "40", spread_favorite := "-3",
    team_home := "A", team_away := "B", stadium := some "S" }

/-- A drawn raw game A 10 - 10 B. -/
def exRawTie : RawRow :=
  { exRawAB with score_home := "10", score_away := "10" }

/-- A raw game whose home score fails numeric coercion. -/
def exRawBad : RawRow :=
  { exRawAB with score_home := "abc" }

/-- A drawn raw game of a team literally named Tie. -/
def exRawTieName : RawRow :=
  { exRawAB with
    team_home := "Tie"
    team_away := "X"
    score_home := "7"
    score_away := "7" }

/-- A raw playoff game, flagged with the text True. -/
def exRawPlayoff : RawRow :=
  { exRawAB with schedule_playoff := some "True" }

/-- Two games between A and B, one win and one draw. -/
def exT1 : RawTable := { rows := [exRawAB, exRawTie] }

/-- One drawn game of the team named Tie. -/
def exT2 : RawTable := { rows := [exRawTieName] }

/-- One game with an uncoercible home score. -/
def exT4 : RawTable := { rows := [exRawBad] }

/-- One playoff-flagged game, playoff column present. -/
def exT6 : RawTable := { rows := [exRawPlayoff], hasPlayoff := true }

/-- A valid table whose stadium column is absent. -/
def exT9 : RawTable := { rows := [exRawAB], hasStadium := false }

/-- An uncoercible-score game next to a drawn game. -/
def exT10 : RawTable := { rows := [exRawBad, exRawTie] }

/-- The drawn game alone. -/
def exT10b : RawTable := { rows := [exRawTie] }

/-- The normalized form of the game A 20 - 17 B. -/
def exNormAB : Row :=
  { season := some 2000, week := some 1, score_home := some 20, score_away := some 17,
    over_under_line := some 40, spread_favorite := some (-3), team_home := "A",
    team_away := "B", total_points := some 37, margin_home := some 3,
    Phase := "Regular", stadium := "S", schedule_playoff := none }

/-- The normalized form of the drawn game A 10 - 10 B. -/
def exNormTie : Row :=
  { exNormAB with
    score_home := some 10
    score_away := some 10
    total_points := some 20
    margin_home := some 0 }

/-- The normalized form of the uncoercible-score game: the derived
columns are missing. -/
def exNormBad : Row :=
  { exNormAB with
    score_home := none
    total_points := none
    margin_home := none }

/-- The normalized form of the playoff-flagged game. -/
def exNormPlayoff : Row :=
  { exNormAB with Phase := "Playoffs", schedule_playoff := some "True" }

/-! Helper lemmas about countP, shared by the aggregation and
head-to-head theorems. -/

/-- countP only depends on the pointwise values of the predicate. -/
theorem countP_congr_local {α : Type} (l : List α) (p q : α → Bool)
    (h : ∀ x ∈ l, p x = q x) : l.countP p = l.countP q := by
  induction l with
  | nil => rfl
  | cons a l ih =>
    rw [List.countP_cons, List.countP_cons, h a (List.mem_cons_self a l),
      ih fun x hx => h x (List.mem_cons_of_mem a hx)]

/-- Counts of two pointwise exclusive predicates add to the count of
their disjunction. -/
theorem countP_disjoint_add {α : Type} (l : List α) (p q : α → Bool)
    (h : ∀ x ∈ l, ¬(p x = true ∧ q x = true)) :
    l.countP p + l.countP q = l.countP fun x => p x || q x := by
  induction l with
  | nil => rfl
  | cons a l ih =>
    have ha := h a (List.mem_cons_self a l)
    have ih := ih fun x hx => h x (List.mem_cons_of_mem a hx)
    rw [List.countP_cons, List.countP_cons, List.countP_cons]
    cases hp : p a <;> cases hq : q a <;> simp [hp, hq] at ha ⊢ <;> omega

/-- Counts of three predicates that hit every element exactly once add
up to the length. -/
theorem countP_three_partition {α : Type} (l : List α) (p q t : α → Bool)
    (h : ∀ x ∈ l,
      (p x || q x || t x) = true ∧
      ¬(p x = true ∧ q x = true) ∧ ¬(p x = true ∧ t x = true) ∧
      ¬(q x = true ∧ t x = true)) :
    l.countP p + l.countP q + l.countP t = l.length := by
  induction l with
  | nil => rfl
  | cons a l ih =>
    obtain ⟨hor, hpq, hpt, hqt⟩ := h a (List.mem_cons_self a l)
    have ih := ih fun x hx => h x (List.mem_cons_of_mem a hx)
    rw [List.countP_cons, List.countP_cons, List.countP_cons, List.length_cons]
    cases hp : p a <;> cases hq : q a <;> cases ht : t a <;>
      simp [hp, hq, ht] at hor hpq hpt hqt ⊢ <;> omega

/-! Theorems about the embedded program. -/

/-- C1: every row of the normalized table produced by load has
total_points equal to the sum and margin_home equal to the difference
of its coerced scores, and a missing score makes both derived values
missing. -/
theorem load_total_margin (t : RawTable) (out : List Row)
    (hld : load_data t = Except.ok out) :
    ∀ r ∈ out,
      r.total_points = Option.map₂ (· + ·) r.score_home r.score_away ∧
      r.margin_home = Option.map₂ (· - ·) r.score_home r.score_away ∧
      ((r.score_home = none ∨ r.score_away = none) →
        r.total_points = none ∧ r.margin_home = none) := by
  intro r hr
  unfold load_data at hld
  by_cases hs : t.hasStadium
  · rw [if_pos hs] at hld
    injection hld with hld
    subst hld
    obtain ⟨a, _, rfl⟩ := List.mem_map.mp hr
    have e1 : (mkRow t.hasPlayoff a).total_points
        = Option.map₂ (· + ·) (mkRow t.hasPlayoff a).score_home
            (mkRow t.hasPlayoff a).score_away := rfl
    have e2 : (mkRow t.hasPlayoff a).margin_home
        = Option.map₂ (· - ·) (mkRow t.hasPlayoff a).score_home
            (mkRow t.hasPlayoff a).score_away := rfl
    refine ⟨e1, e2, fun h => ⟨?_, ?_⟩⟩
    · rw [e1]; rcases h with h | h <;> rw [h] <;> simp
    · rw [e2]; rcases h with h | h <;> rw [h] <;> simp
  · rw [if_neg hs] at hld
    exact absurd hld (by simp)

/-- Witness for C1 at the first row of the two-game example table. -/
theorem load_total_margin_witness :
    exNormAB.total_points
        = Option.map₂ (· + ·) exNormAB.score_home exNormAB.score_away ∧
    exNormAB.margin_home
        = Option.map₂ (· - ·) exNormAB.score_home exNormAB.score_away ∧
    ((exNormAB.score_home = none ∨ exNormAB.score_away = none) →
      exNormAB.total_points = none ∧ exNormAB.margin_home = none) :=
  load_total_margin exT1 (loadRows exT1) rfl exNormAB (by
    rw [show loadRows exT1 = [exNormAB, exNormTie] from rfl]
    exact List.mem_cons_self _ _)

/-- C3: the head-to-head pair mask is symmetric in the two team names,
so both orders select exactly the same rows. -/
theorem h2h_symm (rows : List Row) (A B : String) (hAB : A ≠ B) :
    (h2hOk rows A B).rows = (h2hOk rows B A).rows := by
  simp only [h2hOk, headToHead, if_neg hAB, if_neg (Ne.symm hAB)]
  exact List.filter_congr fun r _ => by
    rw [decide_eq_decide]
    exact or_comm

/-- Witness for C3 on the two-game example table. -/
theorem h2h_symm_witness :
    (h2hOk (loadRows exT1) "A" "B").rows = (h2hOk (loadRows exT1) "B" "A").rows :=
  h2h_symm (loadRows exT1) "A" "B" (by decide)

/-- C7: the KPI season filter keeps a row exactly when its season is
present and lies inside the selected range, both endpoints included. -/
theorem kpi_filter_mem (rows : List Row) (lo hi : Int) (r : Row) :
    r ∈ kpi_filter rows lo hi ↔
      (r ∈ rows ∧ ∃ s : Int, r.season = some s ∧ lo ≤ s ∧ s ≤ hi) := by
  unfold kpi_filter
  rw [List.mem_filter]
  refine and_congr_right fun _ => ?_
  cases hs : r.season with
  | none => simp [hs]
  | some s => simp [hs]

/-- C8: selecting the same team on both sides of the head-to-head view
yields only the invalid-selection condition, with no computed result. -/
theorem h2h_same_team (rows : List Row) (A B : String) (hAB : A = B) :
    headToHead rows A B = Except.error H2HError.invalidSelection := by
  unfold headToHead
  rw [if_pos hAB]

/-- Witness for C8 at a concrete equal pair. -/
theorem h2h_same_team_witness :
    headToHead (loadRows exT1) "A" "A" = Except.error H2HError.invalidSelection :=
  h2h_same_team (loadRows exT1) "A" "A" rfl

/-- C9, failing input: on a table whose stadium column is absent, line
107 evaluates fillna on the plain default string returned by df.get and
raises AttributeError, so load fails instead of defaulting every
stadium to Unknown. -/
theorem stadium_absent_load_fails :
    load_data exT9 = Except.error PandasError.attributeError := rfl

/-- A winner is always the home team, the away team, or the tie label,
whatever the margin is. -/
theorem winner_cases (r : Row) :
    winner r = r.team_home ∨ winner r = r.team_away ∨ winner r = "Tie" := by
  unfold winner
  cases r.margin_home with
  | none => simp
  | some m =>
    by_cases h0 : 0 < m
    · simp [h0]
    · by_cases h1 : m < 0 <;> simp [h0, h1]

/-- On a row matched by the pair mask, the winner is one of the two
selected teams or the tie label. -/
theorem winner_mem (A B : String) (r : Row)
    (hmask : (r.team_home = A ∧ r.team_away = B) ∨
      (r.team_home = B ∧ r.team_away = A)) :
    winner r = A ∨ winner r = B ∨ winner r = "Tie" := by
  rcases winner_cases r with hw | hw | hw
  · rcases hmask with ⟨hh, _⟩ | ⟨hh, _⟩
    · exact Or.inl (hw.trans hh)
    · exact Or.inr (Or.inl (hw.trans hh))
  · rcases hmask with ⟨_, hh⟩ | ⟨_, hh⟩
    · exact Or.inr (Or.inl (hw.trans hh))
    · exact Or.inl (hw.trans hh)
  · exact Or.inr (Or.inr hw)

/-- C2 as amended: when the two selected teams are distinct and neither
is literally named Tie, every matched row's winner follows the margin
sign and is one of the two teams or the tie label, and the three
counters add up to the number of matched games. -/
theorem h2h_partition (rows : List Row) (A B : String)
    (hAB : A ≠ B) (hA : A ≠ "Tie") (hB : B ≠ "Tie")
    (h : H2HResult) (hok : headToHead rows A B = Except.ok h) :
    (∀ r ∈ h.rows,
      (∀ m, r.margin_home = some m →
        (0 < m → winner r = r.team_home) ∧
        (m < 0 → winner r = r.team_away) ∧
        (m = 0 → winner r = "Tie")) ∧
      (winner r = A ∨ winner r = B ∨ winner r = "Tie")) ∧
    h.wins_a + h.wins_b + h.ties = h.games := by
  unfold headToHead at hok
  rw [if_neg hAB] at hok
  injection hok with hok
  subst hok
  constructor
  · intro r hr
    have hmask := (List.mem_filter.mp hr).2
    rw [decide_eq_true_eq] at hmask
    refine ⟨fun m hm => ⟨fun hpos => ?_, fun hneg => ?_, fun hz => ?_⟩,
      winner_mem A B r hmask⟩
    · simp [winner, hm, hpos]
    · have hnp : ¬0 < m := by omega
      simp [winner, hm, hnp, hneg]
    · subst hz
      simp [winner, hm]
  · apply countP_three_partition
    intro r hr
    have hmask := (List.mem_filter.mp hr).2
    rw [decide_eq_true_eq] at hmask
    have hw := winner_mem A B r hmask
    refine ⟨?_, ?_, ?_, ?_⟩
    · rcases hw with hw | hw | hw <;> simp [hw]
    · rintro ⟨h1, h2⟩
      rw [decide_eq_true_eq] at h1 h2
      exact hAB (h1.symm.trans h2)
    · rintro ⟨h1, h2⟩
      rw [decide_eq_true_eq] at h1 h2
      exact hA (h1.symm.trans h2)
    · rintro ⟨h1, h2⟩
      rw [decide_eq_true_eq] at h1 h2
      exact hB (h1.symm.trans h2)

/-- C2 counterexample: with a team literally named Tie, a drawn game is
counted both as a win for that team and as a tie, so the claimed count
identity fails on this one-row table. -/
theorem h2h_tie_name_counterexample :
    (h2hOk (loadRows exT2) "Tie" "X").wins_a + (h2hOk (loadRows exT2) "Tie" "X").wins_b
        + (h2hOk (loadRows exT2) "Tie" "X").ties
      ≠ (h2hOk (loadRows exT2) "Tie" "X").games := by
  decide

/-- Witness for the amended C2 on the two-game example table. -/
theorem h2h_partition_witness :
    (h2hOk (loadRows exT1) "A" "B").wins_a + (h2hOk (loadRows exT1) "A" "B").wins_b
        + (h2hOk (loadRows exT1) "A" "B").ties
      = (h2hOk (loadRows exT1) "A" "B").games :=
  (h2h_partition (loadRows exT1) "A" "B" (by decide) (by decide) (by decide)
    (h2hOk (loadRows exT1) "A" "B") rfl).2

/-- Sum over a duplicate-free key list of the per-key counts of rows
with a non-missing total_points. -/
theorem sum_countP_keys {K : Type} [DecidableEq K] (key : Row → Option K)
    (rows : List Row) (ks : List K) (hnd : ks.Nodup) :
    (ks.map fun k =>
        rows.countP fun r => decide (key r = some k) && (r.total_points).isSome).sum
      = rows.countP fun r =>
          (match key r with
            | some k2 => decide (k2 ∈ ks)
            | none => false) && (r.total_points).isSome := by
  induction ks with
  | nil =>
    simp only [List.map_nil, List.sum_nil]
    refine (List.countP_eq_zero.mpr fun r _ => ?_).symm
    cases hk : key r <;> simp [hk]
  | cons k ks ih =>
    obtain ⟨hk, hnd2⟩ := List.nodup_cons.mp hnd
    rw [List.map_cons, List.sum_cons, ih hnd2]
    have hdis : ∀ x ∈ rows,
        ¬((decide (key x = some k) && (x.total_points).isSome) = true ∧
          ((match key x with
            | some k2 => decide (k2 ∈ ks)
            | none => false) && (x.total_points).isSome) = true) := by
      intro r _ hcon
      obtain ⟨h1, h2⟩ := hcon
      rw [Bool.and_eq_true] at h1 h2
      obtain ⟨h1a, _⟩ := h1
      obtain ⟨h2a, _⟩ := h2
      rw [decide_eq_true_eq] at h1a
      rw [h1a] at h2a
      simp only [decide_eq_true_eq] at h2a
      exact hk h2a
    rw [countP_disjoint_add rows _ _ hdis]
    apply countP_congr_local
    intro r _
    cases hkr : key r with
    | none => simp
    | some k2 =>
      by_cases h1 : k2 = k <;> by_cases h2 : k2 ∈ ks <;>
        cases htp : (r.total_points).isSome <;>
          simp [h1, h2, htp, List.mem_cons]

/-- C4 as amended: for every grouping key, the per-group game counts of
the grouped aggregation sum to the number of rows whose group key and
total_points are both non-missing. -/
theorem group_agg_sum {K : Type} [DecidableEq K] (key : Row → Option K)
    (rows : List Row) :
    sumGames (group_agg key rows)
      = rows.countP fun r => (key r).isSome && (r.total_points).isSome := by
  have h1 : sumGames (group_agg key rows)
      = (((rows.filterMap key).dedup).map fun k =>
          rows.countP fun r => decide (key r = some k) && (r.total_points).isSome).sum := by
    unfold sumGames group_agg
    rw [List.map_map]
    rfl
  rw [h1, sum_countP_keys key rows _ (List.nodup_dedup _)]
  apply countP_congr_local
  intro r hr
  cases hk : key r with
  | none => simp
  | some k =>
    have hmem : k ∈ (rows.filterMap key).dedup :=
      List.mem_dedup.mpr (List.mem_filterMap.mpr ⟨r, hr, hk⟩)
    simp [hmem]

/-- C4 counterexample: one row whose home score fails coercion has a
missing total_points, so the stadium aggregation counts no game for it
and the group counts sum to 0 while the table has 1 row. -/
theorem group_agg_sum_counterexample :
    sumGames (group_agg stadiumKey (loadRows exT4)) ≠ (loadRows exT4).length := by
  decide

/-- C6: a normalized row's phase is Playoffs exactly when the playoff
column is present and its cell, printed and lowercased, is one of the
recognized truthy tokens; with the column absent every row is Regular. -/
theorem phase_iff (t : RawTable) (out : List Row)
    (hld : load_data t = Except.ok out) :
    ∀ r ∈ out,
      (r.Phase = "Playoffs" ↔
        (t.hasPlayoff = true ∧ pyLower (pyStr r.schedule_playoff) ∈ truthyTokens)) ∧
      (t.hasPlayoff = false → r.Phase = "Regular") := by
  intro r hr
  unfold load_data at hld
  by_cases hs : t.hasStadium
  · rw [if_pos hs] at hld
    injection hld with hld
    subst hld
    obtain ⟨a, _, rfl⟩ := List.mem_map.mp hr
    cases hp : t.hasPlayoff
    · simp [mkRow, hp]
    · by_cases htok : pyLower (pyStr a.schedule_playoff) ∈ truthyTokens
      · simp [mkRow, hp, htok]
      · simp [mkRow, hp, htok]
  · rw [if_neg hs] at hld
    exact absurd hld (by simp)

/-- Witness for C6 at the playoff-flagged example row. -/
theorem phase_iff_witness :
    ((exNormPlayoff.Phase = "Playoffs") ↔
      (exT6.hasPlayoff = true ∧
        pyLower (pyStr exNormPlayoff.schedule_playoff) ∈ truthyTokens)) ∧
    (exT6.hasPlayoff = false → exNormPlayoff.Phase = "Regular") :=
  phase_iff exT6 (loadRows exT6) rfl exNormPlayoff (by
    rw [show loadRows exT6 = [exNormPlayoff] from rfl]
    exact List.mem_cons_self _ _)

/-- Growing only the denominator weakly lowers a percentage. -/
theorem rate_cast_le (k n : Nat) (hn : 0 < n) :
    ((k : ℚ) / ((n : ℚ) + 1)) * 100 ≤ ((k : ℚ) / (n : ℚ)) * 100 := by
  have hn2 : (0 : ℚ) < n := by exact_mod_cast hn
  have h1 : (k : ℚ) / ((n : ℚ) + 1) ≤ (k : ℚ) / (n : ℚ) := by
    rw [div_le_div_iff₀ (by linarith) hn2]
    nlinarith [show (0 : ℚ) ≤ (k : ℚ) from Nat.cast_nonneg k]
  linarith

/-- Growing only the denominator strictly lowers a positive
percentage. -/
theorem rate_cast_lt (k n : Nat) (hn : 0 < n) (hk : 0 < k) :
    ((k : ℚ) / ((n : ℚ) + 1)) * 100 < ((k : ℚ) / (n : ℚ)) * 100 := by
  have hn2 : (0 : ℚ) < n := by exact_mod_cast hn
  have hk2 : (0 : ℚ) < k := by exact_mod_cast hk
  have h1 : (k : ℚ) / ((n : ℚ) + 1) < (k : ℚ) / (n : ℚ) := by
    rw [div_lt_div_iff₀ (by linarith) hn2]
    nlinarith
  linarith

/-- C10 as amended: a row with a missing margin is counted in the
denominator of both rate KPIs and never in their numerators, so it
weakly lowers both percentages, strictly whenever the numerator count
is positive. -/
theorem kpi_nan_margin_rates (rows : List Row) (b : Row)
    (hb : b.margin_home = none) (hne : rows ≠ []) :
    homeWinCount (b :: rows) = homeWinCount rows ∧
    closeGamesCount (b :: rows) = closeGamesCount rows ∧
    (b :: rows).length = rows.length + 1 ∧
    home_win_rate (b :: rows) ≤ home_win_rate rows ∧
    close_games_rate (b :: rows) ≤ close_games_rate rows ∧
    (0 < homeWinCount rows → home_win_rate (b :: rows) < home_win_rate rows) ∧
    (0 < closeGamesCount rows → close_games_rate (b :: rows) < close_games_rate rows) := by
  have hn : 0 < rows.length := List.length_pos.mpr hne
  have hw : homeWinCount (b :: rows) = homeWinCount rows := by
    unfold homeWinCount
    rw [List.countP_cons]
    simp [hb]
  have hc : closeGamesCount (b :: rows) = closeGamesCount rows := by
    unfold closeGamesCount
    rw [List.countP_cons]
    simp [hb]
  have hlen : (b :: rows).length = rows.length + 1 := rfl
  refine ⟨hw, hc, hlen, ?_, ?_, ?_, ?_⟩
  · unfold home_win_rate
    rw [hw, hlen]
    push_cast
    exact rate_cast_le _ _ hn
  · unfold close_games_rate
    rw [hc, hlen]
    push_cast
    exact rate_cast_le _ _ hn
  · intro hk
    unfold home_win_rate
    rw [hw, hlen]
    push_cast
    exact rate_cast_lt _ _ hn hk
  · intro hk
    unfold close_games_rate
    rw [hc, hlen]
    push_cast
    exact rate_cast_lt _ _ hn hk

/-- C10 counterexample: on a table whose only decided game is a draw,
the Home Win Rate is zero with or without the missing-margin row, so
that row does not strictly lower the percentage. -/
theorem kpi_nan_margin_strict_counterexample :
    ¬(home_win_rate (kpi_filter (loadRows exT10) 2000 2000)
        < home_win_rate (kpi_filter (loadRows exT10b) 2000 2000)) := by
  simp only [home_win_rate]
  rw [show homeWinCount (kpi_filter (loadRows exT10) 2000 2000) = 0 from rfl,
    show homeWinCount (kpi_filter (loadRows exT10b) 2000 2000) = 0 from rfl,
    show (kpi_filter (loadRows exT10) 2000 2000).length = 2 from rfl,
    show (kpi_filter (loadRows exT10b) 2000 2000).length = 1 from rfl]
  norm_num

/-- Witness for the amended C10: the missing-margin row next to a won
game, where the strict drop is visible. -/
theorem kpi_nan_margin_rates_witness :
    homeWinCount (exNormBad :: [exNormAB]) = homeWinCount [exNormAB] ∧
    closeGamesCount (exNormBad :: [exNormAB]) = closeGamesCount [exNormAB] ∧
    (exNormBad :: [exNormAB]).length = [exNormAB].length + 1 ∧
    home_win_rate (exNormBad :: [exNormAB]) ≤ home_win_rate [exNormAB] ∧
    close_games_rate (exNormBad :: [exNormAB]) ≤ close_games_rate [exNormAB] ∧
    (0 < homeWinCount [exNormAB] →
      home_win_rate (exNormBad :: [exNormAB]) < home_win_rate [exNormAB]) ∧
    (0 < closeGamesCount [exNormAB] →
      close_games_rate (exNormBad :: [exNormAB]) < close_games_rate [exNormAB]) :=
  kpi_nan_margin_rates [exNormAB] exNormBad rfl (by decide)

end NFL
